import Mathlib

/-
  Verification of the bot identity-lifecycle engine
  (lib/tbot/internal/identity/service.go) against its specification.

  The Go service is embedded shallowly: external collaborators (destination
  store, join/registration transport, crypto suites, client builder, facade)
  are supplied through an explicit environment of result-valued functions,
  and the service functions are translated as pure state-passing functions
  that additionally record an ordered trace of the observable effects
  (join attempts, register calls, key generation, persistence, facade swaps).
-/

namespace Teleport

/-- Byte strings (Go byte slices) are modelled as lists of naturals. -/
abbrev Bytes := List Nat

/-- Errors produced by the service and its collaborators, mirroring the
trace package: BadParameter and NotFound are distinguished constructors and
wrapping keeps the cause. -/
inductive GoErr where
  | badParameter (msg : String)
  | notFound (msg : String)
  | other (msg : String)
  | wrap (inner : GoErr) (msg : String)
deriving DecidableEq, Repr

/-- trace.IsNotFound unwraps wrapped errors. -/
def GoErr.isNotFound : GoErr → Bool
  | .notFound _ => true
  | .wrap inner _ => inner.isNotFound
  | _ => false

deriving instance DecidableEq for Except

/-- The leaf X.509 certificate data the service reads: validity bounds
(NotBefore and NotAfter as integer instants) and the subject common name. -/
structure X509Cert where
  notBefore : Int
  notAfter : Int
  subjectCommonName : String
deriving DecidableEq, Repr

/-- One credential bundle, mirroring identity.Identity as used by the
service: private and public key material, the hash of the join token that
produced it, the leaf certificate, and the Renewable flag of the embedded
TLS identity. -/
structure Identity where
  privateKeyBytes : Bytes
  publicKeyBytes : Bytes
  tokenHashBytes : Bytes
  x509Cert : X509Cert
  renewable : Bool
deriving DecidableEq, Repr

/-- The join methods the service switches over. -/
inductive JoinMethod where
  | token
  | azure
  | terraformCloud
  | env0
  | gitlab
  | boundKeypair
  | iam
deriving DecidableEq, Repr

/-- connection.AddressKind. -/
inductive AddressKind where
  | auth
  | proxy
  | unspecified
deriving DecidableEq, Repr

/-- connection.Config as read by the service. -/
structure ConnectionConfig where
  address : String
  addressKind : AddressKind
  insecure : Bool
deriving DecidableEq, Repr

/-- onboarding.Config as read by the service. HasToken and Token are calls
into the onboarding package (not part of the embedded source); their results
are carried as fields. The env0AudienceTag field records a configured
audience-tag value; the service never reads it (compare C10). -/
structure OnboardingConfig where
  hasToken : Bool
  tokenResult : Except GoErr String
  joinMethod : JoinMethod
  caPins : List String
  caPath : String
  azureClientID : String
  terraformAudienceTag : String
  env0AudienceTag : String
  gitlabTokenEnvVarName : String
  boundKeypairRegistrationSecret : String
deriving DecidableEq, Repr

/-- The service Config: connection and onboarding parameters, TTL and
renewal interval, FIPS flag. -/
structure Config where
  connection : ConnectionConfig
  onboarding : OnboardingConfig
  ttl : Int
  renewalInterval : Int
  fips : Bool
deriving DecidableEq, Repr

/-- join.RegisterParams, restricted to the fields the service sets. -/
structure RegisterParams where
  token : String
  joinMethod : JoinMethod
  expires : Int
  insecure : Bool
  caPins : List String
  caPath : String
  fips : Bool
  fipsCipherSuites : Bool
  authClient : Bool
  authServers : List String
  proxyServer : Option String
  azureClientID : String
  terraformCloudAudienceTag : String
  env0AudienceTag : String
  gitlabTokenEnvVarName : String
  boundKeypair : Bool
deriving DecidableEq, Repr

/-- The result of join.Register: handles to the returned private key and
certificate material. -/
structure RegisterResult where
  privateKey : Nat
  certs : Nat
deriving DecidableEq, Repr

/-- proto.UserCertsRequest, restricted to the fields the service sets. -/
structure GenCertsReq where
  sshPublicKey : Bytes
  tlsPublicKey : Bytes
  username : String
  expires : Int
deriving DecidableEq, Repr

/-- Observable effects of one run of the service, recorded in order. -/
inductive Event where
  | joinAttempt (withAuthClient : Bool)
  | registerCall (params : RegisterParams)
  | renewAttempt
  | generateKeyCall (suite : Nat) (idx : Nat)
  | generateUserCertsCall (req : GenCertsReq)
  | renewIdentityCall
  | saveIdentity (i : Identity)
  | clientBuild (i : Identity)
  | facadeSet (i : Identity)
  | verifyWriteCall
  | unblock
  | reportHealthy
deriving DecidableEq, Repr

/-- The mutable state of the service: the facade's current identity, the
number of keys generated so far (used to index the key-generator oracle),
and the trace of effects so far. -/
structure SvcState where
  facade : Option Identity
  keygenCount : Nat
  events : List Event
deriving DecidableEq, Repr

/-- The state at process start: no facade, no generated keys, empty trace. -/
def SvcState.start : SvcState := ⟨none, 0, []⟩

/-- Append one effect to the trace. -/
def SvcState.emit (st : SvcState) (e : Event) : SvcState :=
  { st with events := st.events ++ [e] }

/-- The environment: outcomes of all collaborator calls the service makes.
Functions that the Go code calls fallibly return Except. The key generator
is an indexed oracle: call number n with suite s yields keyGen s n; external
generator failure is not modelled (its error return would only cut the run
short before any identity is produced). -/
structure Env where
  storeLoad : Except GoErr Identity
  now : Int
  sha256hex : String → Bytes
  parseAddr : String → Except GoErr String
  register : RegisterParams → Except GoErr RegisterResult
  marshalPrivateKey : Nat → Except GoErr Bytes
  sshPublicKeyOf : Nat → Except GoErr Bytes
  marshalPublicKey : Nat → Except GoErr Bytes
  readCerts : Nat → Except GoErr (X509Cert × Bool)
  buildClient : Identity → Except GoErr Unit
  verifyWrite : Except GoErr Unit
  saveIdentity : Identity → Except GoErr Unit
  currentSuite : Nat
  keyGen : Nat → Nat → Nat
  generateUserCerts : GenCertsReq → Except GoErr Nat
  facadeExpiry : Identity → Option Int
  boundKeypairLoad : Except GoErr Unit
  boundKeypairUpdateStore : RegisterResult → Except GoErr Unit

/-- Modelled from the spec: identity.ReadIdentityFromStore is not under the
embedded sources; per the specification's data model an Identity is assembled
from the supplied private-key, public-key and token-hash bytes together with
the certificate material returned by the authority, and certificate parsing
may fail. -/
def readIdentityFromStore (env : Env) (privateKeyBytes publicKeyBytes tokenHashBytes : Bytes)
    (certs : Nat) : Except GoErr Identity :=
  match env.readCerts certs with
  | .error e => .error e
  | .ok (cert, renewable) =>
      .ok { privateKeyBytes := privateKeyBytes
            publicKeyBytes := publicKeyBytes
            tokenHashBytes := tokenHashBytes
            x509Cert := cert
            renewable := renewable }

/-- hasTokenChanged from service.go: false when either hash is empty,
otherwise inequality of the two byte strings. -/
def hasTokenChanged (configTokenBytes identityBytes : Bytes) : Bool :=
  if configTokenBytes.length == 0 || identityBytes.length == 0 then false
  else !(identityBytes == configTokenBytes)

/-- The token-mismatch test of loadIdentityFromStore: with a configured and
readable token, compare the stored identity's token hash against the hash of
the configured token; a token-read error (or no configured token) keeps the
stored identity. -/
def shouldDiscard (env : Env) (cfg : Config) (loadedIdent : Identity) : Bool :=
  if cfg.onboarding.hasToken then
    match cfg.onboarding.tokenResult with
    | .ok token => hasTokenChanged loadedIdent.tokenHashBytes (env.sha256hex token)
    | .error _ => false
  else false

/-- The wall-clock validity judgement of loadIdentityFromStore: invalid when
the current time is strictly after NotAfter, otherwise invalid when strictly
before NotBefore, otherwise valid. -/
def judgedValid (env : Env) (loadedIdent : Identity) : Bool :=
  if env.now > loadedIdent.x509Cert.notAfter then false
  else if env.now < loadedIdent.x509Cert.notBefore then false
  else true

/-- loadIdentityFromStore from service.go: a load error (NotFound or parse
failure) yields no identity; a stored identity whose token hash differs from
the hash of the configured token is discarded; otherwise the identity is
returned together with its wall-clock validity at the current time. -/
def loadIdentityFromStore (env : Env) (cfg : Config) : Option Identity × Bool :=
  match env.storeLoad with
  | .error _ => (none, false)
  | .ok loadedIdent =>
      if shouldDiscard env cfg loadedIdent then (none, false)
      else (some loadedIdent, judgedValid env loadedIdent)

/-- The address-kind switch of botIdentityFromToken: auth addresses populate
AuthServers, proxy addresses populate ProxyServer, anything else is a
BadParameter error. -/
def applyAddress (env : Env) (cfg : Config) (p : RegisterParams) :
    Except GoErr RegisterParams :=
  match cfg.connection.addressKind with
  | .auth =>
      match env.parseAddr cfg.connection.address with
      | .error e => .error (.wrap e "failed to parse addr")
      | .ok a => .ok { p with authServers := [a] }
  | .proxy =>
      match env.parseAddr cfg.connection.address with
      | .error e => .error (.wrap e "failed to parse addr")
      | .ok a => .ok { p with proxyServer := some a }
  | .unspecified => .error (.badParameter "unsupported address kind")

/-- The join-method switch of botIdentityFromToken. The returned flag records
whether bound-keypair client state was attached (and must be stored after a
successful register call). -/
def applyJoinMethodParams (env : Env) (cfg : Config) (p : RegisterParams) :
    Except GoErr (RegisterParams × Bool) :=
  match p.joinMethod with
  | .azure => .ok ({ p with azureClientID := cfg.onboarding.azureClientID }, false)
  | .terraformCloud =>
      .ok ({ p with terraformCloudAudienceTag := cfg.onboarding.terraformAudienceTag }, false)
  | .env0 => .ok ({ p with env0AudienceTag := "something" }, false)
  | .gitlab =>
      .ok ({ p with gitlabTokenEnvVarName := cfg.onboarding.gitlabTokenEnvVarName }, false)
  | .boundKeypair =>
      match env.boundKeypairLoad with
      | .error e =>
          if e.isNotFound && !(cfg.onboarding.boundKeypairRegistrationSecret == "") then
            .ok ({ p with boundKeypair := true }, true)
          else .error (.wrap e "loading bound keypair client state")
      | .ok _ => .ok ({ p with boundKeypair := true }, true)
  | _ => .ok (p, false)

/-- The register parameters botIdentityFromToken builds before the address
and join-method switches are applied. -/
def baseRegisterParams (env : Env) (cfg : Config) (token : String) (authClient : Bool) :
    RegisterParams :=
  { token := token
    joinMethod := cfg.onboarding.joinMethod
    expires := env.now + cfg.ttl
    insecure := cfg.connection.insecure
    caPins := cfg.onboarding.caPins
    caPath := cfg.onboarding.caPath
    fips := cfg.fips
    fipsCipherSuites := cfg.fips
    authClient := authClient
    authServers := []
    proxyServer := none
    azureClientID := ""
    terraformCloudAudienceTag := ""
    env0AudienceTag := ""
    gitlabTokenEnvVarName := ""
    boundKeypair := false }

/-- The tail of botIdentityFromToken from the join.Register call on: register,
store the updated bound-keypair state when applicable, marshal the returned
key material and assemble the identity, whose token hash is the hash of the
token used for the ceremony. No further effect on the service state. -/
def registerAndAssemble (env : Env) (params : RegisterParams) (hasBoundKeypair : Bool) :
    Except GoErr Identity :=
  match env.register params with
  | .error e => .error e
  | .ok result =>
      match (if hasBoundKeypair then env.boundKeypairUpdateStore result else .ok ()) with
      | .error e => .error e
      | .ok _ =>
          match env.marshalPrivateKey result.privateKey with
          | .error e => .error e
          | .ok privateKeyPEM =>
              match env.sshPublicKeyOf result.privateKey with
              | .error e => .error e
              | .ok sshPub =>
                  readIdentityFromStore env privateKeyPEM sshPub
                    (env.sha256hex params.token) result.certs

/-- botIdentityFromToken from service.go: read the configured token, build
the register parameters, perform the join ceremony (optionally through a
pre-authenticated client), and assemble the new identity. -/
def botIdentityFromToken (env : Env) (cfg : Config) (authClient : Bool) (st : SvcState) :
    Except GoErr Identity × SvcState :=
  let st := st.emit (.joinAttempt authClient)
  match cfg.onboarding.tokenResult with
  | .error e => (.error e, st)
  | .ok token =>
      match applyAddress env cfg (baseRegisterParams env cfg token authClient) with
      | .error e => (.error e, st)
      | .ok p1 =>
          match applyJoinMethodParams env cfg p1 with
          | .error e => (.error e, st)
          | .ok (params, hasBoundKeypair) =>
              let st := st.emit (.registerCall params)
              (registerAndAssemble env params hasBoundKeypair, st)

/-- The key handle produced by the n-th call to the key generator, under the
currently configured cryptographic suite. -/
def generatedKey (env : Env) (idx : Nat) : Nat :=
  env.keyGen env.currentSuite idx

/-- The tail of botIdentityFromAuth from the GenerateUserCerts call on:
request renewed certificates and assemble the new identity carrying over the
old identity's token hash. No further effect on the service state. -/
def generateAndAssemble (env : Env) (req : GenCertsReq)
    (privateKeyPEM sshPub tokenHashBytes : Bytes) : Except GoErr Identity :=
  match env.generateUserCerts req with
  | .error e => .error (.wrap e "calling GenerateUserCerts")
  | .ok certs =>
      match readIdentityFromStore env privateKeyPEM sshPub tokenHashBytes certs with
      | .error e => .error (.wrap e "reading renewed identity")
      | .ok newIdentity => .ok newIdentity

/-- botIdentityFromAuth from service.go: generate a brand-new key under the
current suite, request renewed certificates via GenerateUserCerts over the
authenticated client, and assemble the new identity carrying over the old
identity's token hash. -/
def botIdentityFromAuth (env : Env) (ident : Identity) (ttl : Int) (st : SvcState) :
    Except GoErr Identity × SvcState :=
  let st := st.emit .renewAttempt
  let idx := st.keygenCount
  let key := generatedKey env idx
  let st : SvcState :=
    { st with keygenCount := st.keygenCount + 1
              events := st.events ++ [.generateKeyCall env.currentSuite idx] }
  match env.marshalPrivateKey key with
  | .error e => (.error e, st)
  | .ok privateKeyPEM =>
      match env.sshPublicKeyOf key with
      | .error e => (.error e, st)
      | .ok sshPub =>
          match env.marshalPublicKey key with
          | .error e => (.error e, st)
          | .ok tlsPub =>
              let req : GenCertsReq :=
                { sshPublicKey := sshPub
                  tlsPublicKey := tlsPub
                  username := ident.x509Cert.subjectCommonName
                  expires := env.now + ttl }
              let st := st.emit (.generateUserCertsCall req)
              (generateAndAssemble env req privateKeyPEM sshPub ident.tokenHashBytes, st)

/-- The liveness test of renewIdentity's lightweight-renewal branch: the
facade-derived expiry is known and the current time is not strictly after it.
The facade's Expiry derivation itself is an external collaborator, supplied
by the environment. -/
def expiryAlive (env : Env) (oldIdentity : Identity) : Bool :=
  match env.facadeExpiry oldIdentity with
  | none => false
  | some expiry => !(env.now > expiry)

/-- renewIdentity from service.go: build a fresh client around the old
identity; renewable identities go through GenerateUserCerts; all others
re-run the join ceremony, through the authenticated client when the identity
is not expired and with no client otherwise. -/
def renewIdentity (env : Env) (cfg : Config) (oldIdentity : Identity) (st : SvcState) :
    Except GoErr Identity × SvcState :=
  let st := st.emit .renewIdentityCall
  match env.buildClient oldIdentity with
  | .error e => (.error (.wrap e "creating auth client"), st)
  | .ok _ =>
      if oldIdentity.renewable then
        match botIdentityFromAuth env oldIdentity cfg.ttl st with
        | (.error e, st) =>
            (.error (.wrap e "renewing identity using GenerateUserCert"), st)
        | (.ok newIdentity, st) => (.ok newIdentity, st)
      else
        if expiryAlive env oldIdentity then
          match botIdentityFromToken env cfg true st with
          | (.error e, st) =>
              (.error (.wrap e "renewing identity using Register with existing auth client"), st)
          | (.ok newIdentity, st) => (.ok newIdentity, st)
        else
          match botIdentityFromToken env cfg false st with
          | (.error e, st) =>
              (.error (.wrap e "renewing identity using Register without existing auth client"), st)
          | (.ok newIdentity, st) => (.ok newIdentity, st)

/-- The success tail of the Initialize method (service.go lines 358 to 378):
persist the new identity, build a client around it, swap it into the facade,
unblock readiness waiters and report healthy. The save and client-build
effects are recorded only when the corresponding call succeeds. -/
def InitializeFinish (env : Env) (newIdentity : Identity) (st : SvcState) :
    Except GoErr Unit × SvcState :=
  match env.saveIdentity newIdentity with
  | .error e => (.error e, st)
  | .ok _ =>
      let st := st.emit (.saveIdentity newIdentity)
      match env.buildClient newIdentity with
      | .error e => (.error e, st)
      | .ok _ =>
          let st := st.emit (.clientBuild newIdentity)
          let st : SvcState :=
            { st with facade := some newIdentity
                      events := st.events ++ [.facadeSet newIdentity] }
          let st := st.emit .unblock
          let st := st.emit .reportHealthy
          (.ok (), st)

/-- Initialize from service.go: load a stored identity, fail fast when
nothing valid was loaded and no token is configured, otherwise join fresh
(no stored identity) or renew (valid stored identity) or rejoin (expired
stored identity); when a stored identity exists and the attempt fails, fall
back to publishing the old identity and succeed. -/
def Initialize (env : Env) (cfg : Config) (st : SvcState) :
    Except GoErr Unit × SvcState :=
  let loaded := loadIdentityFromStore env cfg
  let loadedIdent := loaded.1
  let valid := loaded.2
  if !valid && !cfg.onboarding.hasToken then
    (.error (.badParameter "no existing identity found on disk or join token configured"), st)
  else
    match loadedIdent with
    | none =>
        match botIdentityFromToken env cfg false st with
        | (.error e, st) => (.error (.wrap e "joining with token"), st)
        | (.ok newIdentity, st) => InitializeFinish env newIdentity st
    | some oldIdentity =>
        match (if valid then renewIdentity env cfg oldIdentity st
               else botIdentityFromToken env cfg false st) with
        | (.ok newIdentity, st) => InitializeFinish env newIdentity st
        | (.error _, st) =>
            match env.buildClient oldIdentity with
            | .error clientErr => (.error clientErr, st)
            | .ok _ =>
                let st := st.emit (.clientBuild oldIdentity)
                let st : SvcState :=
                  { st with facade := some oldIdentity
                            events := st.events ++ [.facadeSet oldIdentity] }
                (.ok (), st)

/-- The periodic renew cycle from service.go: read the current identity from
the facade, verify the destination is writable, renew or rejoin, publish the
new identity via the facade, and only then persist it. A nil facade cannot
occur in a real run (renew is only scheduled after Initialize); it is mapped
to an error. -/
def renew (env : Env) (cfg : Config) (st : SvcState) :
    Except GoErr Unit × SvcState :=
  match st.facade with
  | none => (.error (.other "nil facade"), st)
  | some currentIdentity =>
      let st := st.emit .verifyWriteCall
      match env.verifyWrite with
      | .error e => (.error (.wrap e "Cannot write to destination, aborting."), st)
      | .ok _ =>
          match renewIdentity env cfg currentIdentity st with
          | (.error e, st) => (.error (.wrap e "renewing identity"), st)
          | (.ok newIdentity, st) =>
              let st : SvcState :=
                { st with facade := some newIdentity
                          events := st.events ++ [.facadeSet newIdentity] }
              match env.saveIdentity newIdentity with
              | .error e => (.error (.wrap e "saving new identity"), st)
              | .ok _ => (.ok (), st.emit (.saveIdentity newIdentity))

/-- The spec's validity predicate, written from the specification's words:
an identity is valid at time t iff NotBefore is at most t and t is at most
NotAfter (both boundaries inclusive). Used to compare against the validity
judgement computed by loadIdentityFromStore. -/
def specIsValidAt (cert : X509Cert) (t : Int) : Bool :=
  decide (cert.notBefore ≤ t) && decide (t ≤ cert.notAfter)

/-
  The readiness gate: Ready, IsReady and unblockWaiters from service.go.
  Channels are modelled by allocation ids; closing an already-closed channel
  would panic in Go, which the model records in the panicked flag. The
  mutex-guarded methods run one at a time, so the gate is a sequential state
  machine driven by an arbitrary sequence of Ready / unblockWaiters calls.
-/

/-- The readiness-gate state: the lazily allocated channel (if any), the
sync.Once done flag, the set of closed channels, the next allocation id, the
number of channel-close operations performed, and whether a double close
(Go panic) ever happened. -/
structure GateState where
  readyCh : Option Nat
  onceDone : Bool
  closedChannels : List Nat
  nextId : Nat
  closeCalls : Nat
  panicked : Bool
deriving DecidableEq, Repr

/-- The gate at process start. -/
def GateState.start : GateState := ⟨none, false, [], 0, 0, false⟩

/-- Allocate the channel if it does not exist yet (the shared prelude of
Ready and unblockWaiters). -/
def ensureChannel (s : GateState) : Nat × GateState :=
  match s.readyCh with
  | some c => (c, s)
  | none => (s.nextId, { s with readyCh := some s.nextId, nextId := s.nextId + 1 })

/-- Ready from service.go: return the channel, allocating it first if
needed. -/
def gateReady (s : GateState) : Nat × GateState := ensureChannel s

/-- Closing a Go channel: panics (recorded) when the channel was already
closed, otherwise marks it closed. -/
def closeChannel (s : GateState) (c : Nat) : GateState :=
  if s.closedChannels.contains c then { s with panicked := true }
  else { s with closedChannels := c :: s.closedChannels
                closeCalls := s.closeCalls + 1 }

/-- unblockWaiters from service.go: allocate the channel if needed, then
close it through sync.Once so the close body runs at most once. -/
def unblockWaiters (s : GateState) : GateState :=
  let p := ensureChannel s
  if p.2.onceDone then p.2
  else closeChannel { p.2 with onceDone := true } p.1

/-- IsReady from service.go: a select that succeeds exactly when the channel
returned by Ready is closed. -/
def gateIsReady (s : GateState) : Bool × GateState :=
  let p := gateReady s
  (p.2.closedChannels.contains p.1, p.2)

/-- One external call into the gate. -/
inductive GateOp where
  | ready
  | unblock
deriving DecidableEq, Repr

/-- Apply one call to the gate state. -/
def gateStep (s : GateState) (op : GateOp) : GateState :=
  match op with
  | .ready => (gateReady s).2
  | .unblock => unblockWaiters s

/-- Run a sequence of calls against a fresh gate. -/
def runGate (ops : List GateOp) : GateState :=
  ops.foldl gateStep GateState.start

/-
  Trace classification helpers used by the ordering claims.
-/

/-- Effects emitted while obtaining a new identity (join or renewal
attempts); none of them persists or publishes anything. -/
def attemptEvent : Event → Bool
  | .joinAttempt _ => true
  | .registerCall _ => true
  | .renewAttempt => true
  | .generateKeyCall _ _ => true
  | .generateUserCertsCall _ => true
  | .renewIdentityCall => true
  | _ => false

/-- Scan of a trace checking that every publish (facadeSet) of the identity i
is preceded by a successful persist (saveIdentity) of i; the seen flag
records whether a save of i has occurred so far. -/
def pubAfterSaveAux (i : Identity) (seen : Bool) : List Event → Bool
  | [] => true
  | .saveIdentity j :: rest => pubAfterSaveAux i (seen || (j == i)) rest
  | .facadeSet j :: rest =>
      if j == i then seen && pubAfterSaveAux i seen rest
      else pubAfterSaveAux i seen rest
  | _ :: rest => pubAfterSaveAux i seen rest

/-- In the given trace, the identity i is published only after it has been
durably persisted. -/
def publishedOnlyAfterPersisted (i : Identity) (tr : List Event) : Bool :=
  pubAfterSaveAux i false tr

/-- The seen flag after scanning a trace for saves of i. -/
def seenSaveAfter (i : Identity) (seen : Bool) : List Event → Bool
  | [] => seen
  | .saveIdentity j :: rest => seenSaveAfter i (seen || (j == i)) rest
  | _ :: rest => seenSaveAfter i seen rest

theorem pubAfterSaveAux_append (i : Identity) (seen : Bool) (xs ys : List Event) :
    pubAfterSaveAux i seen (xs ++ ys)
      = (pubAfterSaveAux i seen xs && pubAfterSaveAux i (seenSaveAfter i seen xs) ys) := by
  induction xs generalizing seen with
  | nil => simp [pubAfterSaveAux, seenSaveAfter]
  | cons e rest ih =>
      cases e
      case facadeSet j =>
        by_cases h : j = i <;>
          simp [pubAfterSaveAux, seenSaveAfter, ih, h, Bool.and_assoc]
      all_goals simp [pubAfterSaveAux, seenSaveAfter, ih]

theorem pubAfterSaveAux_of_attemptOnly (i : Identity) (seen : Bool) (xs : List Event)
    (h : xs.all attemptEvent = true) : pubAfterSaveAux i seen xs = true := by
  induction xs generalizing seen with
  | nil => simp [pubAfterSaveAux]
  | cons e rest ih =>
      have h1 : attemptEvent e = true ∧ rest.all attemptEvent = true := by
        simpa [List.all_cons] using h
      cases e <;>
        first
          | (simp only [pubAfterSaveAux]; exact ih _ h1.2)
          | (exfalso; revert h1; simp [attemptEvent])

/-- botIdentityFromToken leaves the facade and the key counter alone and
appends exactly one join attempt, followed by at most one register call. -/
theorem botIdentityFromToken_trace (env : Env) (cfg : Config) (ac : Bool) (st : SvcState) :
    (botIdentityFromToken env cfg ac st).2.facade = st.facade ∧
    (botIdentityFromToken env cfg ac st).2.keygenCount = st.keygenCount ∧
    ((botIdentityFromToken env cfg ac st).2.events
        = st.events ++ [Event.joinAttempt ac] ∨
     ∃ p, (botIdentityFromToken env cfg ac st).2.events
        = st.events ++ [Event.joinAttempt ac, Event.registerCall p]) := by
  unfold botIdentityFromToken
  cases htok : cfg.onboarding.tokenResult with
  | error e => simp [SvcState.emit]
  | ok token =>
      cases ha : applyAddress env cfg (baseRegisterParams env cfg token ac) with
      | error e => simp [ha, SvcState.emit]
      | ok p1 =>
          cases hj : applyJoinMethodParams env cfg p1 with
          | error e => simp [ha, hj, SvcState.emit]
          | ok pr =>
              cases pr with
              | mk params hasBK => simp [ha, hj, SvcState.emit]

/-- botIdentityFromAuth leaves the facade alone, increments the key counter
once, and appends the renewal attempt, the key generation and at most one
GenerateUserCerts call. -/
theorem botIdentityFromAuth_trace (env : Env) (ident : Identity) (ttl : Int) (st : SvcState) :
    (botIdentityFromAuth env ident ttl st).2.facade = st.facade ∧
    (botIdentityFromAuth env ident ttl st).2.keygenCount = st.keygenCount + 1 ∧
    ((botIdentityFromAuth env ident ttl st).2.events
        = st.events ++ [Event.renewAttempt,
            Event.generateKeyCall env.currentSuite st.keygenCount] ∨
     ∃ req, (botIdentityFromAuth env ident ttl st).2.events
        = st.events ++ [Event.renewAttempt,
            Event.generateKeyCall env.currentSuite st.keygenCount,
            Event.generateUserCertsCall req]) := by
  unfold botIdentityFromAuth
  cases h1 : env.marshalPrivateKey (generatedKey env st.keygenCount) with
  | error e => simp [h1, SvcState.emit]
  | ok privateKeyPEM =>
      cases h2 : env.sshPublicKeyOf (generatedKey env st.keygenCount) with
      | error e => simp [h1, h2, SvcState.emit]
      | ok sshPub =>
          cases h3 : env.marshalPublicKey (generatedKey env st.keygenCount) with
          | error e => simp [h1, h2, h3, SvcState.emit]
          | ok tlsPub => simp [h1, h2, h3, SvcState.emit]

/-- Every event botIdentityFromToken appends is an attempt event. -/
theorem botIdentityFromToken_attemptOnly (env : Env) (cfg : Config) (ac : Bool) (st : SvcState) :
    ∃ tail, (botIdentityFromToken env cfg ac st).2.events = st.events ++ tail ∧
      tail.all attemptEvent = true := by
  rcases botIdentityFromToken_trace env cfg ac st with ⟨-, -, h | ⟨p, h⟩⟩
  · exact ⟨_, h, by simp [attemptEvent]⟩
  · exact ⟨_, h, by simp [attemptEvent]⟩

/-- Every event botIdentityFromAuth appends is an attempt event. -/
theorem botIdentityFromAuth_attemptOnly (env : Env) (ident : Identity) (ttl : Int)
    (st : SvcState) :
    ∃ tail, (botIdentityFromAuth env ident ttl st).2.events = st.events ++ tail ∧
      tail.all attemptEvent = true := by
  rcases botIdentityFromAuth_trace env ident ttl st with ⟨-, -, h | ⟨req, h⟩⟩
  · exact ⟨_, h, by simp [attemptEvent]⟩
  · exact ⟨_, h, by simp [attemptEvent]⟩

/-- renewIdentity leaves the facade alone and appends only attempt events. -/
theorem renewIdentity_attemptOnly (env : Env) (cfg : Config) (oldIdentity : Identity)
    (st : SvcState) :
    (renewIdentity env cfg oldIdentity st).2.facade = st.facade ∧
    ∃ tail, (renewIdentity env cfg oldIdentity st).2.events = st.events ++ tail ∧
      tail.all attemptEvent = true := by
  unfold renewIdentity
  cases hb : env.buildClient oldIdentity with
  | error e =>
      refine ⟨by simp [SvcState.emit], [Event.renewIdentityCall], by simp [SvcState.emit], ?_⟩
      simp [attemptEvent]
  | ok u =>
      by_cases hr : oldIdentity.renewable
      · simp only [hr, if_true]
        rcases h1 : botIdentityFromAuth env oldIdentity cfg.ttl (st.emit .renewIdentityCall)
          with ⟨res, st'⟩
        rcases botIdentityFromAuth_attemptOnly env oldIdentity cfg.ttl
            (st.emit .renewIdentityCall) with ⟨tail, he, ha⟩
        rcases botIdentityFromAuth_trace env oldIdentity cfg.ttl
            (st.emit .renewIdentityCall) with ⟨hf, -, -⟩
        rw [h1] at he hf
        cases res <;>
          refine ⟨by simpa [SvcState.emit] using hf,
            Event.renewIdentityCall :: tail, by simpa [SvcState.emit] using he, ?_⟩ <;>
          simp [attemptEvent, ha]
      · simp only [hr, if_false]
        by_cases hx : expiryAlive env oldIdentity
        · rw [if_pos hx]
          rcases h1 : botIdentityFromToken env cfg true (st.emit .renewIdentityCall)
            with ⟨res, st'⟩
          rcases botIdentityFromToken_attemptOnly env cfg true
              (st.emit .renewIdentityCall) with ⟨tail, he, ha⟩
          rcases botIdentityFromToken_trace env cfg true
              (st.emit .renewIdentityCall) with ⟨hf, -, -⟩
          rw [h1] at he hf
          cases res <;>
            refine ⟨by simpa [SvcState.emit] using hf,
              Event.renewIdentityCall :: tail, by simpa [SvcState.emit] using he, ?_⟩ <;>
            simp [attemptEvent, ha]
        · rw [if_neg hx]
          rcases h1 : botIdentityFromToken env cfg false (st.emit .renewIdentityCall)
            with ⟨res, st'⟩
          rcases botIdentityFromToken_attemptOnly env cfg false
              (st.emit .renewIdentityCall) with ⟨tail, he, ha⟩
          rcases botIdentityFromToken_trace env cfg false
              (st.emit .renewIdentityCall) with ⟨hf, -, -⟩
          rw [h1] at he hf
          cases res <;>
            refine ⟨by simpa [SvcState.emit] using hf,
              Event.renewIdentityCall :: tail, by simpa [SvcState.emit] using he, ?_⟩ <;>
            simp [attemptEvent, ha]

/-- The effects of the Initialize success tail: nothing on a failed save,
the save alone on a failed client build, and the full
persist-build-publish-unblock-report sequence on success. -/
theorem InitializeFinish_events (env : Env) (n : Identity) (st : SvcState) :
    (InitializeFinish env n st).2.events = st.events ∨
    (InitializeFinish env n st).2.events = st.events ++ [Event.saveIdentity n] ∨
    (InitializeFinish env n st).2.events
      = st.events ++ [Event.saveIdentity n, Event.clientBuild n, Event.facadeSet n,
          Event.unblock, Event.reportHealthy] := by
  unfold InitializeFinish
  cases hs : env.saveIdentity n with
  | error e => simp [hs, SvcState.emit]
  | ok u =>
      cases hb : env.buildClient n with
      | error e => simp [hs, hb, SvcState.emit]
      | ok v => simp [hs, hb, SvcState.emit]

/-
  Concrete collaborators used by the witnesses: a happy-path environment in
  which every external call succeeds, with small variations per scenario.
-/

/-- A concrete leaf certificate valid on the interval 0 to 100. -/
def demoCert : X509Cert := ⟨0, 100, "bot-demo"⟩

/-- A concrete renewable stored identity obtained with token hash [7, 7]. -/
def demoIdent : Identity :=
  { privateKeyBytes := [1]
    publicKeyBytes := [2]
    tokenHashBytes := [7, 7]
    x509Cert := demoCert
    renewable := true }

/-- A happy-path environment: the store holds demoIdent, the clock reads 50,
the configured token "tok-A" hashes to demoIdent's token hash, and every
collaborator call succeeds. -/
def demoEnv : Env :=
  { storeLoad := .ok demoIdent
    now := 50
    sha256hex := fun t => if t == "tok-A" then [7, 7] else [8, 8]
    parseAddr := fun a => .ok a
    register := fun _ => .ok ⟨5, 6⟩
    marshalPrivateKey := fun k => .ok [k]
    sshPublicKeyOf := fun k => .ok [k + 1]
    marshalPublicKey := fun k => .ok [k + 2]
    readCerts := fun _ => .ok (demoCert, false)
    buildClient := fun _ => .ok ()
    verifyWrite := .ok ()
    saveIdentity := fun _ => .ok ()
    currentSuite := 3
    keyGen := fun _ n => 100 + n
    generateUserCerts := fun _ => .ok 9
    facadeExpiry := fun i => some i.x509Cert.notAfter
    boundKeypairLoad := .ok ()
    boundKeypairUpdateStore := fun _ => .ok () }

/-- A concrete configuration joining by token "tok-A" against an auth
address. -/
def demoCfg : Config :=
  { connection := ⟨"auth.example.com:3025", .auth, false⟩
    onboarding :=
      { hasToken := true
        tokenResult := .ok "tok-A"
        joinMethod := .token
        caPins := []
        caPath := ""
        azureClientID := ""
        terraformAudienceTag := "tf-aud"
        env0AudienceTag := "env0-aud"
        gitlabTokenEnvVarName := ""
        boundKeypairRegistrationSecret := "" }
    ttl := 10
    renewalInterval := 5
    fips := false }

/-- C5: for every loaded identity and current time, the validity judgement
of loadIdentityFromStore is exactly the spec's inclusive-boundary predicate:
valid iff NotBefore is at most now and now is at most NotAfter; invalid
exactly when now is strictly after NotAfter or strictly before NotBefore. -/
theorem c5_validity_inclusive_boundaries (env : Env) (cfg : Config) (i : Identity) (v : Bool)
    (h : loadIdentityFromStore env cfg = (some i, v)) :
    v = specIsValidAt i.x509Cert env.now ∧
    (v = true ↔ (i.x509Cert.notBefore ≤ env.now ∧ env.now ≤ i.x509Cert.notAfter)) := by
  unfold loadIdentityFromStore at h
  cases hs : env.storeLoad with
  | error e => rw [hs] at h; simp at h
  | ok li =>
      rw [hs] at h
      by_cases hd : shouldDiscard env cfg li
      · simp [hd] at h
      · simp [hd] at h
        obtain ⟨rfl, rfl⟩ := h
        have hv : (judgedValid env li = true)
            ↔ (li.x509Cert.notBefore ≤ env.now ∧ env.now ≤ li.x509Cert.notAfter) := by
          unfold judgedValid
          split_ifs <;> simp <;> omega
        refine ⟨?_, hv⟩
        rw [Bool.eq_iff_iff, hv]
        unfold specIsValidAt
        simp

/-- C5 witness: the demo environment loads the stored identity as valid at
time 50, inside its validity interval from 0 to 100. -/
theorem c5_witness :
    true = specIsValidAt demoIdent.x509Cert demoEnv.now ∧
    (true = true ↔ (demoIdent.x509Cert.notBefore ≤ demoEnv.now ∧
      demoEnv.now ≤ demoIdent.x509Cert.notAfter)) :=
  c5_validity_inclusive_boundaries demoEnv demoCfg demoIdent true (by decide)

/-- C4: when nothing valid was loaded from the store and no onboarding token
is configured, Initialize fails immediately with the BadParameter
configuration error, leaving the service state (facade and trace) untouched:
no join or renewal is attempted and the facade is never set. -/
theorem c4_fatal_without_token (env : Env) (cfg : Config) (st : SvcState)
    (h1 : (loadIdentityFromStore env cfg).2 = false)
    (h2 : cfg.onboarding.hasToken = false) :
    Initialize env cfg st
      = (.error (.badParameter "no existing identity found on disk or join token configured"),
         st) := by
  unfold Initialize
  simp [h1, h2]

/-- C4 witness: an empty store plus a configuration with no token makes
Initialize fail with the configuration error and leave the start state
unchanged. -/
theorem c4_witness :
    Initialize { demoEnv with storeLoad := .error (.notFound "no identity") }
        { demoCfg with onboarding := { demoCfg.onboarding with hasToken := false } }
        SvcState.start
      = (.error (.badParameter "no existing identity found on disk or join token configured"),
         SvcState.start) :=
  c4_fatal_without_token _ _ _ (by decide) (by decide)

/-- C2: a stored identity whose non-empty token hash differs from the
(non-empty) hash of the currently configured and readable onboarding token is
treated as absent: loadIdentityFromStore returns no identity, and Initialize
takes the fresh-join path, calling botIdentityFromToken with no
pre-authenticated client and never attempting a renewal or an authenticated
rejoin with the stored identity. -/
theorem c2_token_mismatch_discards (env : Env) (cfg : Config) (ident : Identity) (tok : String)
    (h1 : env.storeLoad = .ok ident)
    (h2 : cfg.onboarding.hasToken = true)
    (h3 : cfg.onboarding.tokenResult = .ok tok)
    (h4 : ident.tokenHashBytes ≠ [])
    (h5 : env.sha256hex tok ≠ [])
    (h6 : env.sha256hex tok ≠ ident.tokenHashBytes) :
    loadIdentityFromStore env cfg = (none, false) ∧
    Event.joinAttempt false ∈ (Initialize env cfg SvcState.start).2.events ∧
    Event.joinAttempt true ∉ (Initialize env cfg SvcState.start).2.events ∧
    Event.renewAttempt ∉ (Initialize env cfg SvcState.start).2.events ∧
    Event.renewIdentityCall ∉ (Initialize env cfg SvcState.start).2.events := by
  have hbeq : (env.sha256hex tok == ident.tokenHashBytes) = false := by
    cases hb : env.sha256hex tok == ident.tokenHashBytes
    · rfl
    · exact absurd (eq_of_beq hb) h6
  have hdis : shouldDiscard env cfg ident = true := by
    unfold shouldDiscard hasTokenChanged
    rw [h2, h3]
    have l1 : (ident.tokenHashBytes.length == 0) = false := by
      simp [List.length_eq_zero, h4]
    have l2 : ((env.sha256hex tok).length == 0) = false := by
      simp [List.length_eq_zero, h5]
    simp [l1, l2, hbeq]
  have hload : loadIdentityFromStore env cfg = (none, false) := by
    unfold loadIdentityFromStore
    rw [h1]
    simp [hdis]
  refine ⟨hload, ?_⟩
  unfold Initialize
  rw [hload]
  simp only [h2, Bool.not_true, Bool.and_false, Bool.false_and, Bool.not_false]
  rcases hjt : botIdentityFromToken env cfg false SvcState.start with ⟨res, stJ⟩
  have htr := (botIdentityFromToken_trace env cfg false SvcState.start).2.2
  rw [hjt] at htr
  simp only [SvcState.start] at htr
  rcases htr with htr | ⟨p, htr⟩ <;>
    cases res with
  | error e2 => simp [htr]
  | ok n => rcases InitializeFinish_events env n stJ with hf | hf | hf <;> simp [hf, htr]

/-- C2 witness: the stored hash [7, 7] differs from the hash [8, 8] of the
newly configured token "tok-B", so Initialize joins fresh. -/
theorem c2_witness :
    loadIdentityFromStore demoEnv
        { demoCfg with onboarding := { demoCfg.onboarding with tokenResult := .ok "tok-B" } }
      = (none, false) :=
  (c2_token_mismatch_discards demoEnv
      { demoCfg with onboarding := { demoCfg.onboarding with tokenResult := .ok "tok-B" } }
      demoIdent "tok-B" (by decide) (by decide) (by decide) (by decide) (by decide)
      (by decide)).1

/-- C3: when a stored identity was loaded (valid or expired), the chosen
renew-or-rejoin attempt fails, and a client can be built around the old
identity, Initialize swallows the failure: it returns success and leaves the
old loaded identity in the facade. -/
theorem c3_fallback_to_old_identity (env : Env) (cfg : Config) (old : Identity) (valid : Bool)
    (e : GoErr)
    (h1 : loadIdentityFromStore env cfg = (some old, valid))
    (h2 : (valid || cfg.onboarding.hasToken) = true)
    (h3 : (if valid then renewIdentity env cfg old SvcState.start
           else botIdentityFromToken env cfg false SvcState.start).1 = .error e)
    (h4 : env.buildClient old = .ok ()) :
    (Initialize env cfg SvcState.start).1 = .ok () ∧
    (Initialize env cfg SvcState.start).2.facade = some old := by
  have hcond : (!valid && !cfg.onboarding.hasToken) = false := by
    cases valid with
    | true => rfl
    | false => simpa using h2
  unfold Initialize
  rw [h1]
  simp only [hcond, Bool.false_eq_true, if_false]
  rcases hA : (if valid then renewIdentity env cfg old SvcState.start
      else botIdentityFromToken env cfg false SvcState.start) with ⟨res, stA2⟩
  rw [hA] at h3
  simp only at h3
  subst h3
  simp [h4, SvcState.emit]

/-- C3 witness: with an expired stored identity and a register call that
fails, Initialize still reports success. -/
theorem c3_witness :
    (Initialize
        { demoEnv with now := 200, register := fun _ => .error (.other "authority down") }
        demoCfg SvcState.start).1 = .ok () :=
  (c3_fallback_to_old_identity
      { demoEnv with now := 200, register := fun _ => .error (.other "authority down") }
      demoCfg demoIdent false (.other "authority down")
      (by decide) (by decide) (by decide) (by decide)).1

/-- C9: every periodic renew cycle checks destination writability first; if
the check fails the cycle returns the wrapped error immediately, without any
renew-or-rejoin attempt, and the facade is untouched: the only recorded
effect is the verify-write call itself. -/
theorem c9_unwritable_destination_aborts (env : Env) (cfg : Config) (st : SvcState)
    (cur : Identity) (e : GoErr)
    (h1 : st.facade = some cur)
    (h2 : env.verifyWrite = .error e) :
    (renew env cfg st).1 = .error (.wrap e "Cannot write to destination, aborting.") ∧
    (renew env cfg st).2.facade = st.facade ∧
    (renew env cfg st).2.events = st.events ++ [Event.verifyWriteCall] := by
  unfold renew
  simp [h1, h2, SvcState.emit]

/-- C9 witness: with an unwritable destination the cycle aborts with the
wrapped write error. -/
theorem c9_witness :
    (renew { demoEnv with verifyWrite := .error (.other "read-only") } demoCfg
        { SvcState.start with facade := some demoIdent }).1
      = .error (.wrap (.other "read-only") "Cannot write to destination, aborting.") :=
  (c9_unwritable_destination_aborts
      { demoEnv with verifyWrite := .error (.other "read-only") } demoCfg
      { SvcState.start with facade := some demoIdent } demoIdent (.other "read-only")
      (by decide) (by decide)).1

/-- C7: for a non-renewable identity, renewIdentity re-runs the join
handshake with the authenticated client exactly when the facade-derived
expiry is known and the current time is not after it; when the expiry is
unknown or the current time is strictly after it, the handshake runs with no
pre-authenticated client. The recorded join attempt carries the
corresponding flag, and expiryAlive unfolds to exactly that condition. -/
theorem c7_lightweight_renewal_client_choice (env : Env) (cfg : Config) (old : Identity)
    (st : SvcState)
    (h1 : old.renewable = false)
    (h2 : env.buildClient old = .ok ()) :
    (∃ tail, (renewIdentity env cfg old st).2.events
        = st.events ++ Event.renewIdentityCall :: Event.joinAttempt (expiryAlive env old) :: tail) ∧
    (expiryAlive env old = true ↔ ∃ ex, env.facadeExpiry old = some ex ∧ env.now ≤ ex) := by
  constructor
  · unfold renewIdentity
    rw [h2]
    simp only [h1, Bool.false_eq_true, if_false]
    by_cases hx : expiryAlive env old
    · rw [if_pos hx, hx]
      rcases hjt : botIdentityFromToken env cfg true (st.emit .renewIdentityCall)
        with ⟨res, stJ⟩
      have htr := (botIdentityFromToken_trace env cfg true (st.emit .renewIdentityCall)).2.2
      rw [hjt] at htr
      simp only [SvcState.emit] at htr
      cases res with
      | error e2 =>
          rcases htr with htr | ⟨p, htr⟩
          · exact ⟨[], by simp [htr]⟩
          · exact ⟨[Event.registerCall p], by simp [htr]⟩
      | ok n =>
          rcases htr with htr | ⟨p, htr⟩
          · exact ⟨[], by simp [htr]⟩
          · exact ⟨[Event.registerCall p], by simp [htr]⟩
    · rw [if_neg hx]
      rw [Bool.not_eq_true] at hx
      rw [hx]
      rcases hjt : botIdentityFromToken env cfg false (st.emit .renewIdentityCall)
        with ⟨res, stJ⟩
      have htr := (botIdentityFromToken_trace env cfg false (st.emit .renewIdentityCall)).2.2
      rw [hjt] at htr
      simp only [SvcState.emit] at htr
      cases res with
      | error e2 =>
          rcases htr with htr | ⟨p, htr⟩
          · exact ⟨[], by simp [htr]⟩
          · exact ⟨[Event.registerCall p], by simp [htr]⟩
      | ok n =>
          rcases htr with htr | ⟨p, htr⟩
          · exact ⟨[], by simp [htr]⟩
          · exact ⟨[Event.registerCall p], by simp [htr]⟩
  · unfold expiryAlive
    cases env.facadeExpiry old with
    | none => simp
    | some ex =>
        simp

/-- C7 witness: a non-renewable identity that is expired at time 200 (cert
NotAfter 100) triggers a join attempt without the authenticated client. -/
theorem c7_witness :
    expiryAlive { demoEnv with now := 200 } { demoIdent with renewable := false } = true
      ↔ ∃ ex, Env.facadeExpiry { demoEnv with now := 200 } { demoIdent with renewable := false }
          = some ex ∧ (200 : Int) ≤ ex :=
  (c7_lightweight_renewal_client_choice { demoEnv with now := 200 }
      demoCfg { demoIdent with renewable := false } SvcState.start
      (by decide) (by decide)).2

/-- The successful result of botIdentityFromAuth: the new identity's private
key material is the marshaling of the freshly generated key under the current
suite, its token hash is carried over from the old identity, and the key
counter advances by one. -/
theorem botIdentityFromAuth_ok (env : Env) (ident : Identity) (ttl : Int) (st : SvcState)
    (r : Identity) (st' : SvcState)
    (h : botIdentityFromAuth env ident ttl st = (.ok r, st')) :
    env.marshalPrivateKey (generatedKey env st.keygenCount) = .ok r.privateKeyBytes ∧
    r.tokenHashBytes = ident.tokenHashBytes ∧
    st'.keygenCount = st.keygenCount + 1 := by
  unfold botIdentityFromAuth at h
  simp only [SvcState.emit] at h
  cases hm : env.marshalPrivateKey (generatedKey env st.keygenCount) with
  | error e => rw [hm] at h; simp at h
  | ok pem =>
      rw [hm] at h
      cases hsp : env.sshPublicKeyOf (generatedKey env st.keygenCount) with
      | error e => rw [hsp] at h; simp at h
      | ok sshPub =>
          rw [hsp] at h
          cases hmp : env.marshalPublicKey (generatedKey env st.keygenCount) with
          | error e => rw [hmp] at h; simp at h
          | ok tlsPub =>
              rw [hmp] at h
              simp only [SvcState.emit, Prod.mk.injEq] at h
              obtain ⟨hres, hst⟩ := h
              unfold generateAndAssemble at hres
              cases hg : env.generateUserCerts
                  { sshPublicKey := sshPub, tlsPublicKey := tlsPub,
                    username := ident.x509Cert.subjectCommonName,
                    expires := env.now + ttl } with
              | error e => rw [hg] at hres; simp at hres
              | ok certs =>
                  rw [hg] at hres
                  dsimp only at hres
                  unfold readIdentityFromStore at hres
                  cases hc : env.readCerts certs with
                  | error e => rw [hc] at hres; simp at hres
                  | ok pr =>
                      rw [hc] at hres
                      cases pr with
                      | mk cert rnw =>
                          simp only [Except.ok.injEq] at hres
                          subst hres
                          refine ⟨rfl, rfl, ?_⟩
                          rw [← hst]

/-- C6: every renewal through the GenerateUserCerts path generates a
brand-new private key from the currently configured suite; the resulting
identity's key material is the marshaling of that fresh key, the old
identity's private key material is never consulted (the result is unchanged
under any alteration of the old identity's key material), the token hash is
carried over unchanged, and two successive successful renewals use distinct
generator outputs, hence distinct key material whenever the generator's
successive outputs marshal differently. -/
theorem c6_fresh_key_per_renewal (env : Env) (old1 old2 r1 r2 : Identity) (ttl1 ttl2 : Int)
    (st st1 st2 : SvcState)
    (h1 : botIdentityFromAuth env old1 ttl1 st = (.ok r1, st1))
    (h2 : botIdentityFromAuth env old2 ttl2 st1 = (.ok r2, st2)) :
    env.marshalPrivateKey (generatedKey env st.keygenCount) = .ok r1.privateKeyBytes ∧
    r1.tokenHashBytes = old1.tokenHashBytes ∧
    st1.keygenCount = st.keygenCount + 1 ∧
    env.marshalPrivateKey (generatedKey env (st.keygenCount + 1)) = .ok r2.privateKeyBytes ∧
    (∀ pk pub rnw,
        (botIdentityFromAuth env
            { old1 with privateKeyBytes := pk, publicKeyBytes := pub, renewable := rnw }
            ttl1 st).1
          = (botIdentityFromAuth env old1 ttl1 st).1) ∧
    ((∀ b1 b2, env.marshalPrivateKey (generatedKey env st.keygenCount) = .ok b1 →
        env.marshalPrivateKey (generatedKey env (st.keygenCount + 1)) = .ok b2 → b1 ≠ b2) →
      r1.privateKeyBytes ≠ r2.privateKeyBytes) := by
  obtain ⟨k1, t1, c1⟩ := botIdentityFromAuth_ok env old1 ttl1 st r1 st1 h1
  obtain ⟨k2, t2, c2⟩ := botIdentityFromAuth_ok env old2 ttl2 st1 r2 st2 h2
  rw [c1] at k2
  refine ⟨k1, t1, c1, k2, ?_, ?_⟩
  · intro pk pub rnw
    rfl
  · intro hdist
    exact hdist r1.privateKeyBytes r2.privateKeyBytes k1 k2

/-- C6 values for the witness: the first renewal of demoIdent under demoEnv
yields key handle 100, the second yields key handle 101. -/
def c6R1 : Identity :=
  { privateKeyBytes := [100]
    publicKeyBytes := [101]
    tokenHashBytes := [7, 7]
    x509Cert := demoCert
    renewable := false }

def c6St1 : SvcState :=
  { facade := none
    keygenCount := 1
    events := [.renewAttempt, .generateKeyCall 3 0,
      .generateUserCertsCall ⟨[101], [102], "bot-demo", 60⟩] }

def c6R2 : Identity :=
  { privateKeyBytes := [101]
    publicKeyBytes := [102]
    tokenHashBytes := [7, 7]
    x509Cert := demoCert
    renewable := false }

def c6St2 : SvcState :=
  { facade := none
    keygenCount := 2
    events := c6St1.events ++ [.renewAttempt, .generateKeyCall 3 1,
      .generateUserCertsCall ⟨[102], [103], "bot-demo", 60⟩] }

/-- C6 witness: the first concrete renewal carries over the stored token
hash unchanged. -/
theorem c6_witness : c6R1.tokenHashBytes = demoIdent.tokenHashBytes :=
  (c6_fresh_key_per_renewal demoEnv demoIdent c6R1 c6R1 c6R2 10 10
      SvcState.start c6St1 c6St2 (by decide) (by decide)).2.1

theorem applyAddress_fields (env : Env) (cfg : Config) (p q : RegisterParams)
    (h : applyAddress env cfg p = .ok q) :
    q.joinMethod = p.joinMethod ∧ q.env0AudienceTag = p.env0AudienceTag ∧
    q.terraformCloudAudienceTag = p.terraformCloudAudienceTag := by
  unfold applyAddress at h
  cases hk : cfg.connection.addressKind with
  | auth =>
      rw [hk] at h
      cases ha : env.parseAddr cfg.connection.address with
      | error e => rw [ha] at h; simp at h
      | ok a =>
          rw [ha] at h
          simp only [Except.ok.injEq] at h
          subst h
          exact ⟨rfl, rfl, rfl⟩
  | proxy =>
      rw [hk] at h
      cases ha : env.parseAddr cfg.connection.address with
      | error e => rw [ha] at h; simp at h
      | ok a =>
          rw [ha] at h
          simp only [Except.ok.injEq] at h
          subst h
          exact ⟨rfl, rfl, rfl⟩
  | unspecified => rw [hk] at h; simp at h

theorem applyJoinMethodParams_env0 (env : Env) (cfg : Config) (p q : RegisterParams) (b : Bool)
    (hm : p.joinMethod = .env0)
    (h : applyJoinMethodParams env cfg p = .ok (q, b)) :
    q.env0AudienceTag = "something" := by
  unfold applyJoinMethodParams at h
  rw [hm] at h
  simp only [Except.ok.injEq, Prod.mk.injEq] at h
  rw [← h.1]

theorem applyJoinMethodParams_terraform (env : Env) (cfg : Config) (p q : RegisterParams)
    (b : Bool)
    (hm : p.joinMethod = .terraformCloud)
    (h : applyJoinMethodParams env cfg p = .ok (q, b)) :
    q.terraformCloudAudienceTag = cfg.onboarding.terraformAudienceTag := by
  unfold applyJoinMethodParams at h
  rw [hm] at h
  simp only [Except.ok.injEq, Prod.mk.injEq] at h
  rw [← h.1]

/-- C10: whenever botIdentityFromToken reaches join.Register under the Env0
join method, the Env0AudienceTag register parameter is the constant string
"something", independent of every configured value (the configuration is
universally quantified, including its env0AudienceTag field); under the
Terraform Cloud join method, by contrast, the audience tag passed is the one
taken from the configuration. -/
theorem c10_env0_audience_hardcoded :
    (∀ (env : Env) (cfg : Config) (ac : Bool) (st : SvcState) (p : RegisterParams),
        cfg.onboarding.joinMethod = .env0 →
        (botIdentityFromToken env cfg ac st).2.events
          = st.events ++ [Event.joinAttempt ac, Event.registerCall p] →
        p.env0AudienceTag = "something") ∧
    (∀ (env : Env) (cfg : Config) (ac : Bool) (st : SvcState) (p : RegisterParams),
        cfg.onboarding.joinMethod = .terraformCloud →
        (botIdentityFromToken env cfg ac st).2.events
          = st.events ++ [Event.joinAttempt ac, Event.registerCall p] →
        p.terraformCloudAudienceTag = cfg.onboarding.terraformAudienceTag) := by
  constructor
  · intro env cfg ac st p hm hev
    unfold botIdentityFromToken at hev
    cases htok : cfg.onboarding.tokenResult with
    | error e =>
        rw [htok] at hev
        simp [SvcState.emit, List.append_cancel_left_eq] at hev
    | ok token =>
        rw [htok] at hev
        dsimp only at hev
        cases ha : applyAddress env cfg (baseRegisterParams env cfg token ac) with
        | error e =>
            rw [ha] at hev
            simp [SvcState.emit, List.append_cancel_left_eq] at hev
        | ok p1 =>
            rw [ha] at hev
            dsimp only at hev
            cases hj : applyJoinMethodParams env cfg p1 with
            | error e =>
                rw [hj] at hev
                simp [SvcState.emit, List.append_cancel_left_eq] at hev
            | ok pr =>
                cases pr with
                | mk params hasBK =>
                    rw [hj] at hev
                    dsimp only at hev
                    simp only [SvcState.emit, List.append_assoc, List.singleton_append,
                      List.append_cancel_left_eq, List.cons.injEq, Event.registerCall.injEq,
                      and_true, true_and] at hev
                    subst hev
                    have hp1 : p1.joinMethod = .env0 := by
                      rw [(applyAddress_fields env cfg _ p1 ha).1]
                      exact hm
                    exact applyJoinMethodParams_env0 env cfg p1 params hasBK hp1 hj
  · intro env cfg ac st p hm hev
    unfold botIdentityFromToken at hev
    cases htok : cfg.onboarding.tokenResult with
    | error e =>
        rw [htok] at hev
        simp [SvcState.emit, List.append_cancel_left_eq] at hev
    | ok token =>
        rw [htok] at hev
        dsimp only at hev
        cases ha : applyAddress env cfg (baseRegisterParams env cfg token ac) with
        | error e =>
            rw [ha] at hev
            simp [SvcState.emit, List.append_cancel_left_eq] at hev
        | ok p1 =>
            rw [ha] at hev
            dsimp only at hev
            cases hj : applyJoinMethodParams env cfg p1 with
            | error e =>
                rw [hj] at hev
                simp [SvcState.emit, List.append_cancel_left_eq] at hev
            | ok pr =>
                cases pr with
                | mk params hasBK =>
                    rw [hj] at hev
                    dsimp only at hev
                    simp only [SvcState.emit, List.append_assoc, List.singleton_append,
                      List.append_cancel_left_eq, List.cons.injEq, Event.registerCall.injEq,
                      and_true, true_and] at hev
                    subst hev
                    have hp1 : p1.joinMethod = .terraformCloud := by
                      rw [(applyAddress_fields env cfg _ p1 ha).1]
                      exact hm
                    exact applyJoinMethodParams_terraform env cfg p1 params hasBK hp1 hj

/-- The register parameters actually passed in the C10 witness run. -/
def c10Params : RegisterParams :=
  { baseRegisterParams demoEnv
      { demoCfg with onboarding := { demoCfg.onboarding with joinMethod := .env0 } }
      "tok-A" false
    with
    authServers := ["auth.example.com:3025"]
    env0AudienceTag := "something" }

/-- C10 witness: a concrete Env0 run passes audience tag "something" even
though the configuration carries "env0-aud". -/
theorem c10_witness : c10Params.env0AudienceTag = "something" :=
  c10_env0_audience_hardcoded.1 demoEnv
    { demoCfg with onboarding := { demoCfg.onboarding with joinMethod := .env0 } }
    false SvcState.start c10Params rfl (by decide)

/-- The gate state after the channel has been allocated but not yet closed. -/
def gateIdle : GateState := ⟨some 0, false, [], 1, 0, false⟩

/-- The gate state after the one permitted close. -/
def gateDone : GateState := ⟨some 0, true, [0], 1, 1, false⟩

/-- The three states the gate can ever be in. -/
def gateReached (s : GateState) : Prop :=
  s = GateState.start ∨ s = gateIdle ∨ s = gateDone

theorem gateStep_inv (s : GateState) (op : GateOp) (h : gateReached s) :
    gateReached (gateStep s op) ∧
    (gateStep s op).onceDone = (s.onceDone || (op == GateOp.unblock)) := by
  rcases h with rfl | rfl | rfl <;> cases op <;>
    refine ⟨?_, by decide⟩ <;> unfold gateReached <;> decide

theorem runGateFrom_inv (ops : List GateOp) (s : GateState) (h : gateReached s) :
    gateReached (ops.foldl gateStep s) ∧
    (ops.foldl gateStep s).onceDone = (s.onceDone || ops.contains GateOp.unblock) := by
  induction ops generalizing s with
  | nil => simpa using h
  | cons op rest ih =>
      obtain ⟨h1, h2⟩ := gateStep_inv s op h
      obtain ⟨h3, h4⟩ := ih (gateStep s op) h1
      refine ⟨by simpa using h3, ?_⟩
      simp only [List.foldl_cons] at *
      rw [h4, h2, List.contains_cons]
      cases s.onceDone <;> cases op <;>
        simp [show (GateOp.ready == GateOp.unblock) = false from rfl,
              show (GateOp.unblock == GateOp.ready) = false from rfl]

/-- C8: the readiness gate is idempotent. Over every sequence of Ready and
unblockWaiters calls against a fresh gate: no double close ever happens (no
panic), the channel is closed at most once and exactly once when some
trigger occurred, every Ready call returns the same channel (id 0), and
IsReady is false before the first trigger and true ever after. -/
theorem c8_readiness_gate_idempotent (ops : List GateOp) :
    (runGate ops).panicked = false ∧
    (runGate ops).closeCalls ≤ 1 ∧
    ((runGate ops).closeCalls = 1 ↔ ops.contains GateOp.unblock = true) ∧
    (gateReady (runGate ops)).1 = 0 ∧
    ((gateIsReady (runGate ops)).1 = true ↔ ops.contains GateOp.unblock = true) := by
  obtain ⟨h1, h2⟩ := runGateFrom_inv ops GateState.start (Or.inl rfl)
  rw [show GateState.start.onceDone = false from rfl, Bool.false_or] at h2
  unfold runGate
  rcases h1 with he | he | he <;>
    rw [he] <;> rw [he] at h2 <;>
    refine ⟨by decide, by decide, ?_, by decide, ?_⟩ <;>
    rw [← h2] <;> decide

theorem publishedOnlyAfterPersisted_of_finish (env : Env) (i : Identity) (st : SvcState)
    (hx : st.events.all attemptEvent = true) :
    publishedOnlyAfterPersisted i (InitializeFinish env i st).2.events = true := by
  rcases InitializeFinish_events env i st with hf | hf | hf
  · unfold publishedOnlyAfterPersisted
    rw [hf]
    exact pubAfterSaveAux_of_attemptOnly i false st.events hx
  · unfold publishedOnlyAfterPersisted
    rw [hf, pubAfterSaveAux_append,
      pubAfterSaveAux_of_attemptOnly i false st.events hx]
    simp [pubAfterSaveAux]
  · unfold publishedOnlyAfterPersisted
    rw [hf, pubAfterSaveAux_append,
      pubAfterSaveAux_of_attemptOnly i false st.events hx]
    simp [pubAfterSaveAux]

/-- The identity obtained by the renewal in the C1 scenario. -/
def c1NewIdent : Identity :=
  { privateKeyBytes := [100]
    publicKeyBytes := [101]
    tokenHashBytes := [7, 7]
    x509Cert := demoCert
    renewable := false }

/-- The service state at the start of the C1 renew cycle: the facade holds
the stored renewable identity. -/
def c1Start : SvcState := { SvcState.start with facade := some demoIdent }

/-- The service state after the C1 renew cycle. -/
def c1Final : SvcState :=
  { facade := some c1NewIdent
    keygenCount := 1
    events := [.verifyWriteCall, .renewIdentityCall, .renewAttempt, .generateKeyCall 3 0,
      .generateUserCertsCall ⟨[101], [102], "bot-demo", 60⟩,
      .facadeSet c1NewIdent, .saveIdentity c1NewIdent] }

/-- C1 counterexample: a fully successful periodic renew cycle in which the
newly obtained identity is published through the facade without any prior
successful SaveIdentity: the claim that the facade swap happens only after
persistence in both paths fails on the periodic renew cycle, where the code
calls facade.Set before SaveIdentity. -/
theorem c1_counterexample :
    (renew demoEnv demoCfg c1Start).1 = .ok () ∧
    (renew demoEnv demoCfg c1Start).2.facade = some c1NewIdent ∧
    publishedOnlyAfterPersisted c1NewIdent (renew demoEnv demoCfg c1Start).2.events
      = false := by decide

/-- C1 (amended): in the Initialize path, a successfully obtained new
identity is published via the facade only after SaveIdentity on it completed
without error (both the fresh-join and the stored-identity dispatch); in the
periodic renew cycle, by contrast, every successful cycle publishes the new
identity via the facade's Set immediately before SaveIdentity is attempted
(publish first, persist after). -/
theorem c1_persist_publish_order :
    (∀ (env : Env) (cfg : Config) (newIdent : Identity) (stJ : SvcState),
        loadIdentityFromStore env cfg = (none, false) →
        cfg.onboarding.hasToken = true →
        botIdentityFromToken env cfg false SvcState.start = (.ok newIdent, stJ) →
        publishedOnlyAfterPersisted newIdent
          (Initialize env cfg SvcState.start).2.events = true) ∧
    (∀ (env : Env) (cfg : Config) (old newIdent : Identity) (valid : Bool) (stA : SvcState),
        loadIdentityFromStore env cfg = (some old, valid) →
        (valid || cfg.onboarding.hasToken) = true →
        (if valid then renewIdentity env cfg old SvcState.start
         else botIdentityFromToken env cfg false SvcState.start) = (.ok newIdent, stA) →
        publishedOnlyAfterPersisted newIdent
          (Initialize env cfg SvcState.start).2.events = true) ∧
    (∀ (env : Env) (cfg : Config) (st st' : SvcState) (cur : Identity),
        st.facade = some cur →
        renew env cfg st = (.ok (), st') →
        ∃ newIdent pre,
          st'.events = pre ++ [Event.facadeSet newIdent, Event.saveIdentity newIdent] ∧
          st'.facade = some newIdent) := by
  refine ⟨?_, ?_, ?_⟩
  · intro env cfg newIdent stJ hload htok hjt
    have hall : stJ.events.all attemptEvent = true := by
      obtain ⟨tail, he, ha⟩ := botIdentityFromToken_attemptOnly env cfg false SvcState.start
      rw [hjt] at he
      have he2 : stJ.events = tail := by simpa [SvcState.start] using he
      rw [he2]
      exact ha
    unfold Initialize
    rw [hload]
    simp only [htok, Bool.not_true, Bool.and_false, Bool.false_eq_true, if_false]
    rw [hjt]
    exact publishedOnlyAfterPersisted_of_finish env newIdent stJ hall
  · intro env cfg old newIdent valid stA hload h2 hatt
    have hall : stA.events.all attemptEvent = true := by
      cases valid with
      | true =>
          rw [if_pos rfl] at hatt
          obtain ⟨-, tail, he, ha⟩ := renewIdentity_attemptOnly env cfg old SvcState.start
          rw [hatt] at he
          have he2 : stA.events = tail := by simpa [SvcState.start] using he
          rw [he2]
          exact ha
      | false =>
          rw [if_neg (by simp)] at hatt
          obtain ⟨tail, he, ha⟩ := botIdentityFromToken_attemptOnly env cfg false SvcState.start
          rw [hatt] at he
          have he2 : stA.events = tail := by simpa [SvcState.start] using he
          rw [he2]
          exact ha
    have hcond : (!valid && !cfg.onboarding.hasToken) = false := by
      cases valid with
      | true => rfl
      | false => simpa using h2
    unfold Initialize
    rw [hload]
    simp only [hcond, Bool.false_eq_true, if_false]
    rw [hatt]
    exact publishedOnlyAfterPersisted_of_finish env newIdent stA hall
  · intro env cfg st st' cur hfac hren
    unfold renew at hren
    rw [hfac] at hren
    dsimp only at hren
    cases hv : env.verifyWrite with
    | error e => rw [hv] at hren; simp at hren
    | ok u =>
        rw [hv] at hren
        rcases hri : renewIdentity env cfg cur (st.emit .verifyWriteCall) with ⟨res, stR⟩
        rw [hri] at hren
        cases res with
        | error e => simp at hren
        | ok n =>
            dsimp only at hren
            cases hs : env.saveIdentity n with
            | error e => rw [hs] at hren; simp at hren
            | ok v =>
                rw [hs] at hren
                simp only [Prod.mk.injEq, SvcState.emit, true_and] at hren
                refine ⟨n, stR.events, ?_, ?_⟩
                · rw [← hren]
                  simp
                · rw [← hren]

/-- C1 witness (for the amended theorem): the concrete successful renew
cycle ends with the facade swap immediately followed by the persist. -/
theorem c1_witness :
    ∃ newIdent pre,
      c1Final.events = pre ++ [Event.facadeSet newIdent, Event.saveIdentity newIdent] ∧
      c1Final.facade = some newIdent :=
  c1_persist_publish_order.2.2 demoEnv demoCfg c1Start c1Final demoIdent
    (by decide) (by decide)

end Teleport
